import Mathlib

/-!
# Verification of the Lazorkit React Native wallet session manager

Shallow embedding of the session/transaction state manager in
`src/context/WalletContext.tsx` and of the session-key permission check in
`src/utils/lazorkit.ts`, together with theorems settling the specification's
testable properties.

Modelling conventions:
* React state (`useState` setters) is modelled as a record `WalletState`;
  each operation is a pure function `WalletState × Storage → ...` returning
  the state after all queued updates are applied.  A JavaScript `throw`
  inside a `try` block aborts the remaining statements of the block; this is
  modelled with `Except`, the error carrying the state as mutated so far.
* `expo-secure-store` is modelled as a record `Storage` of the three keys the
  manager uses (`walletAddress`, `lastActivity`, `transactions`); its
  operations are local key-value accesses and are modelled as reliable.
* `new PublicKey s` (from `@solana/web3.js`) throws exactly when `s` is not a
  base58 string decoding to 32 bytes; `isValidSolanaAddress` computes that
  predicate (base58 big-endian decoding with leading `'1'`s as zero bytes).
* `JSON.stringify`/`JSON.parse` of the transaction list are modelled by the
  type `StoredTxs`: a stored blob is either the serialization of a concrete
  list (`wellFormed l`, on which `JSON.parse` succeeds and round-trips) or a
  non-JSON string (`corrupt c`, on which `JSON.parse` throws).
* `Date.now()` and `Math.random().toString(36).substr(2, n)` are modelled as
  explicit parameters (`now`, a random suffix string), making the
  nondeterminism of the source visible in the theorems.
-/

/-- The 58 characters of the Bitcoin base58 alphabet used by `bs58`
(no `0`, `O`, `I`, `l`). -/
def base58Chars : List Char :=
  ['1', '2', '3', '4', '5', '6', '7', '8', '9',
   'A', 'B', 'C', 'D', 'E', 'F', 'G', 'H', 'J', 'K', 'L', 'M', 'N',
   'P', 'Q', 'R', 'S', 'T', 'U', 'V', 'W', 'X', 'Y', 'Z',
   'a', 'b', 'c', 'd', 'e', 'f', 'g', 'h', 'i', 'j', 'k', 'm', 'n', 'o',
   'p', 'q', 'r', 's', 't', 'u', 'v', 'w', 'x', 'y', 'z']

/-- Index of a character in the base58 alphabet, `none` if it is not one. -/
def base58Index (c : Char) : Option Nat :=
  base58Chars.findIdx? (fun d => d == c)

/-- Big-endian numeric value of a base58 digit string; `none` on a
non-alphabet character. -/
def base58Value (cs : List Char) : Option Nat :=
  cs.foldl
    (fun acc c => do
      let a ← acc
      let d ← base58Index c
      pure (a * 58 + d))
    (some 0)

/-- Number of bytes in the minimal big-endian encoding of `n`
(`0` for `n = 0`), via explicit fuel for executability. -/
def byteLenAux : Nat → Nat → Nat
  | 0, _ => 0
  | fuel + 1, n => if n = 0 then 0 else byteLenAux fuel (n / 256) + 1

/-- Number of bytes in the minimal big-endian encoding of `n`. -/
def byteLen (n : Nat) : Nat := byteLenAux n n

/-- Length in bytes of the `bs58` decoding of `s`: one zero byte per leading
`'1'`, then the minimal big-endian bytes of the value of the rest; `none` if
`s` contains a non-alphabet character. -/
def base58DecodedLen (s : String) : Option Nat :=
  let cs := s.toList
  let lead := (cs.takeWhile (fun c => c == '1')).length
  let rest := cs.dropWhile (fun c => c == '1')
  (base58Value rest).map (fun n => lead + byteLen n)

/-- `new PublicKey s` succeeds iff `s` is base58 and decodes to exactly 32
bytes (mirrors `isValidSolanaAddress` in `src/utils/helpers.ts` and the
`PublicKey` constructor used by `WalletContext.tsx`). -/
def isValidSolanaAddress (s : String) : Bool :=
  match base58DecodedLen s with
  | some n => n == 32
  | none => false

/-- `Transaction.type` in `WalletContext.tsx`: "send" | "receive" | "swap" |
"billing". -/
inductive TxType where
  | send
  | receive
  | swap
  | billing
  deriving DecidableEq, Repr

/-- `Transaction.status` in `WalletContext.tsx`: "pending" | "confirmed" |
"failed". -/
inductive TxStatus where
  | pending
  | confirmed
  | failed
  deriving DecidableEq, Repr

/-- The `Transaction` record of `WalletContext.tsx` (a history entry).
Amounts are JavaScript numbers used only in comparisons; they are embedded
as integers. -/
structure Transaction where
  id : String
  signature : String
  type : TxType
  amount : Int
  token : String
  recipient : Option String
  timestamp : Nat
  status : TxStatus
  deriving DecidableEq, Repr

/-- A value stored under the `transactions` storage key: either
`JSON.stringify` of a concrete list (on which `JSON.parse` round-trips) or a
string that is not valid JSON (on which `JSON.parse` throws). -/
inductive StoredTxs where
  | wellFormed (l : List Transaction)
  | corrupt (c : String)
  deriving DecidableEq, Repr

/-- The three `expo-secure-store` keys used by the session manager.
`lastActivity` is written as `Date.now().toString()` and read back with
`parseInt`, which round-trips; it is kept as a `Nat`. -/
structure Storage where
  walletAddress : Option String
  lastActivity : Option Nat
  transactions : Option StoredTxs
  deriving DecidableEq, Repr

/-- The in-memory React state of `WalletProvider`.  `publicKey` keeps the
base58 string the `PublicKey` was constructed from. -/
structure WalletState where
  walletAddress : Option String
  publicKey : Option String
  isConnected : Bool
  isLoading : Bool
  error : Option String
  transactions : List Transaction
  lastActivity : Option Nat
  deriving DecidableEq, Repr

/-- The initial `useState` values of `WalletProvider` (the state at mount,
from which the `useEffect` runs `restoreSession`). -/
def initialState : WalletState :=
  { walletAddress := none
    publicKey := none
    isConnected := false
    isLoading := false
    error := none
    transactions := []
    lastActivity := none }

/-- Storage with none of the three keys present. -/
def emptyStorage : Storage :=
  { walletAddress := none, lastActivity := none, transactions := none }

/-- The `try` block of `restoreSession` (`WalletContext.tsx:112-135`).
An `Except.error` carries the state as mutated before the throw:
`new PublicKey savedWallet` throws after `setWalletAddress` has run, and
`JSON.parse savedTransactions` throws after the address and activity blocks
have run. -/
def restoreSessionBody (s : WalletState) (st : Storage) :
    Except WalletState WalletState :=
  let addrStep : Except WalletState WalletState :=
    match st.walletAddress with
    | none => Except.ok s
    | some w =>
      let s := { s with walletAddress := some w }
      if isValidSolanaAddress w then
        Except.ok { s with publicKey := some w, isConnected := true }
      else
        Except.error s
  match addrStep with
  | Except.error s => Except.error s
  | Except.ok s =>
    let s :=
      match st.lastActivity with
      | none => s
      | some a => { s with lastActivity := some a }
    match st.transactions with
    | none => Except.ok s
    | some (StoredTxs.wellFormed l) => Except.ok { s with transactions := l }
    | some (StoredTxs.corrupt _) => Except.error s

/-- `restoreSession` (`WalletContext.tsx:112-135`): runs the body; the
`catch` sets `error` and the call returns normally.  Storage is only read,
never written. -/
def restoreSession (s : WalletState) (st : Storage) : WalletState × Storage :=
  match restoreSessionBody s st with
  | Except.ok s1 => (s1, st)
  | Except.error s1 =>
    ({ s1 with error := some "Failed to restore session" }, st)

/-- `clearSession` (`WalletContext.tsx:140-155`): deletes the three storage
keys and resets the in-memory state (`isLoading` is not touched). -/
def clearSession (s : WalletState) (_st : Storage) : WalletState × Storage :=
  ({ s with
      walletAddress := none
      publicKey := none
      isConnected := false
      transactions := []
      lastActivity := none
      error := none },
   emptyStorage)

/-- `disconnectWallet` (`WalletContext.tsx:195-197`): it only awaits
`clearSession`; it makes no SDK or remote call. -/
def disconnectWallet (s : WalletState) (st : Storage) : WalletState × Storage :=
  clearSession s st

/-- `connectWallet` (`WalletContext.tsx:160-190`): simulated connection.
`suffix` stands for `Math.random().toString(36).substr(2, 9)`, `now` for
`Date.now()`.  The simulated address is `"LazorKitWallet" ++ suffix`; the
`PublicKey` is built from the constant valid string of 32 `'1'`s, so the try
block never throws; `isLoading` ends `false` via `finally`. -/
def connectWallet (s : WalletState) (st : Storage) (suffix : String)
    (now : Nat) : WalletState × Storage :=
  let addr := "LazorKitWallet" ++ suffix
  ({ s with
      isLoading := false
      error := none
      walletAddress := some addr
      publicKey := some "11111111111111111111111111111111"
      isConnected := true
      lastActivity := some now },
   { st with walletAddress := some addr, lastActivity := some now })

/-- `signMessage` (`WalletContext.tsx:202-227`): throws
`"Wallet not connected"` before touching any state when not connected;
otherwise returns a simulated signature and updates `lastActivity`
(`rand` stands for `Math.random().toString(36).substr(2, 16)`). -/
def signMessage (s : WalletState) (st : Storage) (_message : String)
    (rand : String) (now : Nat) :
    Except String String × WalletState × Storage :=
  if s.isConnected then
    (Except.ok ("sig_" ++ rand),
     { s with isLoading := false, lastActivity := some now }, st)
  else
    (Except.error "Wallet not connected", s, st)

/-- The `Transaction` record built by `sendTransaction`
(`WalletContext.tsx:245-255`); `type` is `"send"` for every token
(the source's conditional has identical branches) and `status` is
`"pending"`. -/
def mkSendTx (recipient : String) (amount : Int) (token : String)
    (rand : String) (now : Nat) : Transaction :=
  { id := "tx_" ++ rand
    signature := "tx_" ++ rand
    type := TxType.send
    amount := amount
    token := token
    recipient := some recipient
    timestamp := now
    status := TxStatus.pending }

/-- `sendTransaction` (`WalletContext.tsx:232-276`): throws
`"Wallet not connected"` before touching any state when not connected;
otherwise it performs no validation of `recipient`, `amount` or any balance,
prepends the new record to the history, mirrors the updated list and a fresh
`lastActivity` to storage, and returns the locally generated id. -/
def sendTransaction (s : WalletState) (st : Storage) (recipient : String)
    (amount : Int) (token : String) (rand : String) (now : Nat) :
    Except String String × WalletState × Storage :=
  if s.isConnected then
    let newTx := mkSendTx recipient amount token rand now
    (Except.ok ("tx_" ++ rand),
     { s with
        isLoading := false
        transactions := newTx :: s.transactions
        lastActivity := some now },
     { st with
        transactions := some (StoredTxs.wellFormed (newTx :: s.transactions))
        lastActivity := some now })
  else
    (Except.error "Wallet not connected", s, st)

/-- `SessionPermissions` from `src/utils/lazorkit.ts`; `PublicKey` values are
kept as their base58 strings (`PublicKey.equals` coincides with string
equality for keys built from distinct strings). -/
structure SessionPermissions where
  maxAmount : Option Int
  allowedRecipients : Option (List String)
  allowedTokens : Option (List String)
  allowedPrograms : Option (List String)
  deriving DecidableEq, Repr

/-- `SessionKey` from `src/utils/lazorkit.ts`. -/
structure SessionKey where
  publicKey : String
  permissions : SessionPermissions
  createdAt : Int
  expiresAt : Int
  deriving DecidableEq, Repr

/-- JavaScript truthiness of the optional numeric field `maxAmount`:
`undefined` and `0` are falsy. -/
def maxAmountTruthy : Option Int → Bool
  | none => false
  | some m => m != 0

/-- `validateSessionKeyPermissions` (`src/utils/lazorkit.ts:268-301`),
with `now` standing for `Date.now()`. -/
def validateSessionKeyPermissions (sessionKey : SessionKey)
    (recipient : String) (amount : Int) (token : String) (now : Int) : Bool :=
  let permissions := sessionKey.permissions
  if sessionKey.expiresAt < now then
    false
  else if maxAmountTruthy permissions.maxAmount
      && (match permissions.maxAmount with
          | some m => amount > m
          | none => false) then
    false
  else if (match permissions.allowedRecipients with
           | some rs => !(rs.any (fun r => r == recipient))
           | none => false) then
    false
  else if (match permissions.allowedTokens with
           | some ts => !(ts.any (fun t => t == token))
           | none => false) then
    false
  else
    true

/-- Helper: `restoreSession` with a stored address that fails validation
sets only `walletAddress` and `error`, and leaves storage untouched. -/
theorem restoreSession_invalid_eq (s : WalletState) (st : Storage)
    (w : String) (hw : st.walletAddress = some w)
    (hv : isValidSolanaAddress w = false) :
    restoreSession s st =
      ({ s with walletAddress := some w,
                error := some "Failed to restore session" }, st) := by
  simp only [restoreSession, restoreSessionBody, hw, hv]
  rfl

/-- Helper: `restoreSession` with a fully valid persisted triple populates
the state and leaves storage untouched. -/
theorem restoreSession_valid_eq (s : WalletState) (st : Storage)
    (w : String) (a : Nat) (l : List Transaction)
    (hw : st.walletAddress = some w) (hv : isValidSolanaAddress w = true)
    (ha : st.lastActivity = some a)
    (ht : st.transactions = some (StoredTxs.wellFormed l)) :
    restoreSession s st =
      ({ s with walletAddress := some w, publicKey := some w,
                isConnected := true, lastActivity := some a,
                transactions := l }, st) := by
  simp only [restoreSession, restoreSessionBody, hw, hv, ha, ht]
  rfl

/-- C1: the claim asserts that restoring with an invalid persisted address
deletes all three storage keys; at the concrete store holding the invalid
address `"bad0"` the key is still present after `restoreSession`, so the
claim is false. -/
theorem C1_counterexample :
    isValidSolanaAddress "bad0" = false ∧
    (restoreSession initialState
        { walletAddress := some "bad0", lastActivity := none,
          transactions := none }).2.walletAddress ≠ none := by
  constructor
  · decide
  · decide

/-- C1 (amended): for every persisted store whose address is syntactically
invalid, `restoreSession` run from the freshly mounted state completes
without throwing with `isConnected = false` and a recoverable error set, the
three storage keys are left exactly as they were (none deleted), and the
call is idempotent: running it again yields the identical state and store. -/
theorem C1_restore_invalid_address (st : Storage) (w : String)
    (hw : st.walletAddress = some w)
    (hv : isValidSolanaAddress w = false) :
    (restoreSession initialState st).1.isConnected = false ∧
    (restoreSession initialState st).1.error =
      some "Failed to restore session" ∧
    (restoreSession initialState st).2 = st ∧
    restoreSession (restoreSession initialState st).1
        (restoreSession initialState st).2 =
      restoreSession initialState st := by
  rw [restoreSession_invalid_eq initialState st w hw hv]
  refine ⟨rfl, rfl, rfl, ?_⟩
  rw [restoreSession_invalid_eq _ st w hw hv]

/-- C1 witness: the amended behaviour at the concrete store holding the
invalid address `"bad0"`. -/
theorem C1_restore_invalid_address_witness :
    (restoreSession initialState
        { walletAddress := some "bad0", lastActivity := none,
          transactions := none }).1.isConnected = false ∧
    (restoreSession initialState
        { walletAddress := some "bad0", lastActivity := none,
          transactions := none }).1.error =
      some "Failed to restore session" ∧
    (restoreSession initialState
        { walletAddress := some "bad0", lastActivity := none,
          transactions := none }).2 =
      { walletAddress := some "bad0", lastActivity := none,
        transactions := none } ∧
    restoreSession
        (restoreSession initialState
          { walletAddress := some "bad0", lastActivity := none,
            transactions := none }).1
        (restoreSession initialState
          { walletAddress := some "bad0", lastActivity := none,
            transactions := none }).2 =
      restoreSession initialState
        { walletAddress := some "bad0", lastActivity := none,
          transactions := none } :=
  C1_restore_invalid_address
    { walletAddress := some "bad0", lastActivity := none,
      transactions := none } "bad0" rfl (by decide)

/-- C2: for every persisted triple of a valid address, a timestamp and a
well-formed serialized transaction list, `restoreSession` reproduces a state
with `isConnected = true` and `transactions` equal to the persisted list,
element for element in the same order (stated from any starting state). -/
theorem C2_restore_valid_triple (s : WalletState) (st : Storage)
    (w : String) (a : Nat) (l : List Transaction)
    (hw : st.walletAddress = some w) (hv : isValidSolanaAddress w = true)
    (ha : st.lastActivity = some a)
    (ht : st.transactions = some (StoredTxs.wellFormed l)) :
    (restoreSession s st).1.isConnected = true ∧
    (restoreSession s st).1.transactions = l ∧
    (restoreSession s st).1.walletAddress = some w ∧
    (restoreSession s st).1.lastActivity = some a ∧
    (restoreSession s st).2 = st := by
  rw [restoreSession_valid_eq s st w a l hw hv ha ht]
  exact ⟨rfl, rfl, rfl, rfl, rfl⟩

/-- C2 witness: restoring the concrete triple of the valid all-ones address,
timestamp 7 and a one-element history reproduces it. -/
theorem C2_restore_valid_triple_witness :
    (restoreSession initialState
        { walletAddress := some "11111111111111111111111111111111",
          lastActivity := some 7,
          transactions := some (StoredTxs.wellFormed
            [{ id := "tx_a", signature := "tx_a", type := TxType.send,
               amount := 5, token := "USDC", recipient := some "r",
               timestamp := 3, status := TxStatus.pending }]) }).1.isConnected
      = true ∧
    (restoreSession initialState
        { walletAddress := some "11111111111111111111111111111111",
          lastActivity := some 7,
          transactions := some (StoredTxs.wellFormed
            [{ id := "tx_a", signature := "tx_a", type := TxType.send,
               amount := 5, token := "USDC", recipient := some "r",
               timestamp := 3, status := TxStatus.pending }]) }).1.transactions
      = [{ id := "tx_a", signature := "tx_a", type := TxType.send,
           amount := 5, token := "USDC", recipient := some "r",
           timestamp := 3, status := TxStatus.pending }] ∧
    (restoreSession initialState
        { walletAddress := some "11111111111111111111111111111111",
          lastActivity := some 7,
          transactions := some (StoredTxs.wellFormed
            [{ id := "tx_a", signature := "tx_a", type := TxType.send,
               amount := 5, token := "USDC", recipient := some "r",
               timestamp := 3, status := TxStatus.pending }]) }).1.walletAddress
      = some "11111111111111111111111111111111" ∧
    (restoreSession initialState
        { walletAddress := some "11111111111111111111111111111111",
          lastActivity := some 7,
          transactions := some (StoredTxs.wellFormed
            [{ id := "tx_a", signature := "tx_a", type := TxType.send,
               amount := 5, token := "USDC", recipient := some "r",
               timestamp := 3, status := TxStatus.pending }]) }).1.lastActivity
      = some 7 ∧
    (restoreSession initialState
        { walletAddress := some "11111111111111111111111111111111",
          lastActivity := some 7,
          transactions := some (StoredTxs.wellFormed
            [{ id := "tx_a", signature := "tx_a", type := TxType.send,
               amount := 5, token := "USDC", recipient := some "r",
               timestamp := 3, status := TxStatus.pending }]) }).2
      = { walletAddress := some "11111111111111111111111111111111",
          lastActivity := some 7,
          transactions := some (StoredTxs.wellFormed
            [{ id := "tx_a", signature := "tx_a", type := TxType.send,
               amount := 5, token := "USDC", recipient := some "r",
               timestamp := 3, status := TxStatus.pending }]) } :=
  C2_restore_valid_triple initialState _ "11111111111111111111111111111111" 7 _
    rfl (by decide) rfl rfl

/-- A connected in-memory state with an empty history, as produced by a
restore of the valid all-ones address (used as concrete input below). -/
def connectedState : WalletState :=
  { walletAddress := some "11111111111111111111111111111111"
    publicKey := some "11111111111111111111111111111111"
    isConnected := true
    isLoading := false
    error := none
    transactions := []
    lastActivity := none }

/-- C3: the claim asserts that `sendTransaction` with an invalid recipient
or a non-positive amount fails and appends no record; at the concrete
connected state, sending amount `-5` to the non-base58 recipient `"!!!"`
succeeds and appends a record, so the claim is false. -/
theorem C3_counterexample :
    isValidSolanaAddress "!!!" = false ∧ (-5 : Int) ≤ 0 ∧
    (sendTransaction connectedState emptyStorage "!!!" (-5) "USDC" "r" 0).1
      = Except.ok "tx_r" ∧
    (sendTransaction connectedState emptyStorage "!!!" (-5) "USDC" "r"
        0).2.1.transactions ≠ [] := by
  refine ⟨by decide, by decide, by rfl, by decide⟩

/-- C3 (amended): `sendTransaction` validates nothing about its inputs:
whenever the wallet is connected it succeeds and appends a record for every
recipient (even syntactically invalid), every amount (even non-positive) and
every token; there is no cached balance and no balance check in the code.
The only guard is the connection check. -/
theorem C3_send_no_validation (s : WalletState) (st : Storage)
    (recipient : String) (amount : Int) (token rand : String) (now : Nat)
    (h : s.isConnected = true) :
    (sendTransaction s st recipient amount token rand now).1 =
      Except.ok ("tx_" ++ rand) ∧
    (sendTransaction s st recipient amount token rand now).2.1.transactions =
      mkSendTx recipient amount token rand now :: s.transactions := by
  refine ⟨?_, ?_⟩ <;> simp [sendTransaction, h]

/-- C3 witness: the amended behaviour at the invalid recipient `"!!!"` and
the negative amount `-5`. -/
theorem C3_send_no_validation_witness :
    (sendTransaction connectedState emptyStorage "!!!" (-5) "USDC" "r" 0).1 =
      Except.ok ("tx_" ++ "r") ∧
    (sendTransaction connectedState emptyStorage "!!!" (-5) "USDC" "r"
        0).2.1.transactions =
      mkSendTx "!!!" (-5) "USDC" "r" 0 :: connectedState.transactions :=
  C3_send_no_validation connectedState emptyStorage "!!!" (-5) "USDC" "r" 0
    rfl

/-- C4: `signMessage` while disconnected fails with the
"Wallet not connected" error and returns the in-memory state, the storage
keys and the loading flag entirely unchanged (the throw happens before any
mutation). -/
theorem C4_sign_not_connected (s : WalletState) (st : Storage)
    (message rand : String) (now : Nat) (h : s.isConnected = false) :
    signMessage s st message rand now =
      (Except.error "Wallet not connected", s, st) := by
  simp only [signMessage, h]
  rfl

/-- C4 witness: signing from the freshly mounted disconnected state. -/
theorem C4_sign_not_connected_witness :
    signMessage initialState emptyStorage "hello" "r" 9 =
      (Except.error "Wallet not connected", initialState, emptyStorage) :=
  C4_sign_not_connected initialState emptyStorage "hello" "r" 9 rfl

/-- C5: after every successful `sendTransaction` the new record is the first
element of the history and the previous elements follow it unchanged in
their prior order, so newest-first ordering is preserved by every send. -/
theorem C5_newest_first (s : WalletState) (st : Storage)
    (recipient : String) (amount : Int) (token rand : String) (now : Nat)
    (h : s.isConnected = true) :
    (sendTransaction s st recipient amount token rand
        now).2.1.transactions.head? =
      some (mkSendTx recipient amount token rand now) ∧
    (sendTransaction s st recipient amount token rand
        now).2.1.transactions.tail = s.transactions := by
  simp only [sendTransaction, h, if_true]
  exact ⟨rfl, rfl⟩

/-- C5 witness: a send from the concrete connected state puts the new
record first with the empty previous history as tail. -/
theorem C5_newest_first_witness :
    (sendTransaction connectedState emptyStorage
        "11111111111111111111111111111111" 5 "USDC" "r"
        2).2.1.transactions.head? =
      some (mkSendTx "11111111111111111111111111111111" 5 "USDC" "r" 2) ∧
    (sendTransaction connectedState emptyStorage
        "11111111111111111111111111111111" 5 "USDC" "r"
        2).2.1.transactions.tail = connectedState.transactions :=
  C5_newest_first connectedState emptyStorage
    "11111111111111111111111111111111" 5 "USDC" "r" 2 rfl

/-- C6: `connectWallet` immediately followed by `disconnectWallet` always
ends with `isConnected = false` and all three persisted keys absent.
`disconnectWallet` consists solely of the local `clearSession`; it makes no
SDK or remote call, so local cleanup cannot be gated on remote success. -/
theorem C6_connect_then_disconnect (s : WalletState) (st : Storage)
    (suffix : String) (now : Nat) :
    (disconnectWallet (connectWallet s st suffix now).1
        (connectWallet s st suffix now).2).1.isConnected = false ∧
    (disconnectWallet (connectWallet s st suffix now).1
        (connectWallet s st suffix now).2).2.walletAddress = none ∧
    (disconnectWallet (connectWallet s st suffix now).1
        (connectWallet s st suffix now).2).2.lastActivity = none ∧
    (disconnectWallet (connectWallet s st suffix now).1
        (connectWallet s st suffix now).2).2.transactions = none := by
  exact ⟨rfl, rfl, rfl, rfl⟩

/-- C7: the claim asserts that a successful `sendTransaction` records the
transaction as `confirmed`; at the concrete connected state the appended
record has status `pending`, so the claim is false. -/
theorem C7_counterexample :
    ((sendTransaction connectedState emptyStorage
        "11111111111111111111111111111111" 5 "USDC" "r"
        0).2.1.transactions.head?).map Transaction.status =
      some TxStatus.pending ∧
    TxStatus.pending ≠ TxStatus.confirmed := by
  refine ⟨by decide, by decide⟩

/-- C7 (amended): every record appended by a successful `sendTransaction`
is created with status `pending` at the moment the (locally simulated) call
returns, and no code path ever polls the network or updates the status. -/
theorem C7_status_pending (s : WalletState) (st : Storage)
    (recipient : String) (amount : Int) (token rand : String) (now : Nat)
    (h : s.isConnected = true) :
    ((sendTransaction s st recipient amount token rand
        now).2.1.transactions.head?).map Transaction.status =
      some TxStatus.pending := by
  simp only [sendTransaction, h, if_true, List.head?, Option.map]
  rfl

/-- C7 witness: the amended behaviour at a concrete connected send. -/
theorem C7_status_pending_witness :
    ((sendTransaction connectedState emptyStorage
        "11111111111111111111111111111111" 5 "USDC" "q"
        1).2.1.transactions.head?).map Transaction.status =
      some TxStatus.pending :=
  C7_status_pending connectedState emptyStorage
    "11111111111111111111111111111111" 5 "USDC" "q" 1 rfl

/-- The connection/address invariant that actually holds: whenever
`isConnected` is true the stored address is non-null (its syntactic
validity is NOT guaranteed). -/
def addrPresent (s : WalletState) : Prop :=
  s.isConnected = true → s.walletAddress ≠ none

/-- Helper: `restoreSession` preserves `addrPresent`. -/
theorem restoreSession_addrPresent (s : WalletState) (st : Storage)
    (h : addrPresent s) : addrPresent (restoreSession s st).1 := by
  unfold addrPresent at h ⊢
  rcases hw : st.walletAddress with _ | w
  · rcases ha : st.lastActivity with _ | a <;>
      rcases ht : st.transactions with _ | (l | c) <;>
      simpa [restoreSession, restoreSessionBody, hw, ha, ht] using h
  · by_cases hv : isValidSolanaAddress w <;>
      rcases ha : st.lastActivity with _ | a <;>
      rcases ht : st.transactions with _ | (l | c) <;>
      simp [restoreSession, restoreSessionBody, hw, ha, ht, hv]

/-- C8: the claim asserts that after every operation `isConnected` holds iff
the address is non-null and syntactically valid; after `connectWallet` (here
with the empty random suffix) `isConnected` is true while the installed
simulated address `"LazorKitWallet"` is not a valid base58 chain address
(it contains the letter `l`), so the claim is false. -/
theorem C8_counterexample :
    (connectWallet initialState emptyStorage "" 0).1.isConnected = true ∧
    (connectWallet initialState emptyStorage "" 0).1.walletAddress =
      some "LazorKitWallet" ∧
    isValidSolanaAddress "LazorKitWallet" = false := by
  refine ⟨by rfl, by rfl, by decide⟩

/-- C8 (amended): after every completed operation of the session manager the
weaker invariant holds that `isConnected = true` implies the stored address
is non-null; syntactic validity of the address is not an invariant (the
simulated `connectWallet` installs an address that is not valid base58). -/
theorem C8_connected_address_nonnull (s : WalletState) (st : Storage)
    (suffix message recipient token rand : String) (amount : Int) (now : Nat)
    (h : addrPresent s) :
    addrPresent (restoreSession s st).1 ∧
    addrPresent (connectWallet s st suffix now).1 ∧
    addrPresent (disconnectWallet s st).1 ∧
    addrPresent (clearSession s st).1 ∧
    addrPresent (signMessage s st message rand now).2.1 ∧
    addrPresent (sendTransaction s st recipient amount token rand now).2.1 := by
  refine ⟨restoreSession_addrPresent s st h, ?_, ?_, ?_, ?_, ?_⟩
  · intro _
    simp [connectWallet]
  · intro hc
    simp [disconnectWallet, clearSession] at hc
  · intro hc
    simp [clearSession] at hc
  · intro hc
    by_cases hcon : s.isConnected
    · simpa [signMessage, hcon] using h hcon
    · simp [signMessage, hcon] at hc
  · intro hc
    by_cases hcon : s.isConnected
    · simpa [sendTransaction, hcon] using h hcon
    · simp [sendTransaction, hcon] at hc

/-- C8 witness: the amended invariant propagated from the freshly mounted
state at concrete inputs. -/
theorem C8_connected_address_nonnull_witness :
    addrPresent (restoreSession initialState emptyStorage).1 ∧
    addrPresent (connectWallet initialState emptyStorage "x" 3).1 ∧
    addrPresent (disconnectWallet initialState emptyStorage).1 ∧
    addrPresent (clearSession initialState emptyStorage).1 ∧
    addrPresent (signMessage initialState emptyStorage "m" "r" 3).2.1 ∧
    addrPresent
      (sendTransaction initialState emptyStorage "dest" 5 "USDC" "r"
        3).2.1 :=
  C8_connected_address_nonnull initialState emptyStorage "x" "m" "dest"
    "USDC" "r" 5 3 (by intro hc; simp [initialState] at hc)

/-- C9: restoring a store holding a valid address together with a
`transactions` blob that is not valid JSON completes without throwing (the
parse failure is caught) and, from the freshly mounted state, leaves a fully
connected state whose transaction list is the empty default — never a
half-populated mixture. -/
theorem C9_restore_corrupt_txs (st : Storage) (w c : String)
    (hw : st.walletAddress = some w) (hv : isValidSolanaAddress w = true)
    (ht : st.transactions = some (StoredTxs.corrupt c)) :
    (restoreSession initialState st).1.isConnected = true ∧
    (restoreSession initialState st).1.walletAddress = some w ∧
    (restoreSession initialState st).1.publicKey = some w ∧
    (restoreSession initialState st).1.transactions = [] ∧
    (restoreSession initialState st).1.error =
      some "Failed to restore session" ∧
    (restoreSession initialState st).2 = st := by
  rcases ha : st.lastActivity with _ | a <;>
    simp [restoreSession, restoreSessionBody, hw, hv, ht, ha, initialState]

/-- C9 witness: restoring the concrete store of the valid all-ones address
and a non-JSON transactions blob. -/
theorem C9_restore_corrupt_txs_witness :
    (restoreSession initialState
        { walletAddress := some "11111111111111111111111111111111",
          lastActivity := some 4,
          transactions := some (StoredTxs.corrupt "not json") }).1.isConnected
      = true ∧
    (restoreSession initialState
        { walletAddress := some "11111111111111111111111111111111",
          lastActivity := some 4,
          transactions := some (StoredTxs.corrupt "not json") }).1.walletAddress
      = some "11111111111111111111111111111111" ∧
    (restoreSession initialState
        { walletAddress := some "11111111111111111111111111111111",
          lastActivity := some 4,
          transactions := some (StoredTxs.corrupt "not json") }).1.publicKey
      = some "11111111111111111111111111111111" ∧
    (restoreSession initialState
        { walletAddress := some "11111111111111111111111111111111",
          lastActivity := some 4,
          transactions := some (StoredTxs.corrupt "not json") }).1.transactions
      = [] ∧
    (restoreSession initialState
        { walletAddress := some "11111111111111111111111111111111",
          lastActivity := some 4,
          transactions := some (StoredTxs.corrupt "not json") }).1.error
      = some "Failed to restore session" ∧
    (restoreSession initialState
        { walletAddress := some "11111111111111111111111111111111",
          lastActivity := some 4,
          transactions := some (StoredTxs.corrupt "not json") }).2
      = { walletAddress := some "11111111111111111111111111111111",
          lastActivity := some 4,
          transactions := some (StoredTxs.corrupt "not json") } :=
  C9_restore_corrupt_txs
    { walletAddress := some "11111111111111111111111111111111",
      lastActivity := some 4,
      transactions := some (StoredTxs.corrupt "not json") }
    "11111111111111111111111111111111" "not json" rfl (by decide) rfl

/-- C10: `validateSessionKeyPermissions` returns true iff the key is
unexpired (`now ≤ expiresAt`), the `maxAmount` bound is unset or zero or
respected, the recipient is unrestricted or whitelisted, and the token is
unrestricted or whitelisted; in particular `maxAmount = 0` imposes no limit
(it is JavaScript-falsy) and an expired key is always rejected. -/
theorem C10_validate_permissions_iff (k : SessionKey) (recipient : String)
    (amount : Int) (token : String) (now : Int) :
    validateSessionKeyPermissions k recipient amount token now = true ↔
      (now ≤ k.expiresAt ∧
       (k.permissions.maxAmount = none ∨ k.permissions.maxAmount = some 0 ∨
         ∃ m, k.permissions.maxAmount = some m ∧ amount ≤ m) ∧
       (k.permissions.allowedRecipients = none ∨
         ∃ rs, k.permissions.allowedRecipients = some rs ∧ recipient ∈ rs) ∧
       (k.permissions.allowedTokens = none ∨
         ∃ ts, k.permissions.allowedTokens = some ts ∧ token ∈ ts)) := by
  unfold validateSessionKeyPermissions maxAmountTruthy
  by_cases he : k.expiresAt < now
  · simp [if_pos he, show ¬(now ≤ k.expiresAt) from by omega]
  · rw [if_neg he]
    rcases hm : k.permissions.maxAmount with _ | m <;>
      rcases hr : k.permissions.allowedRecipients with _ | rs <;>
      rcases htk : k.permissions.allowedTokens with _ | ts <;>
      simp [hm, hr, htk, List.any_eq_true, not_lt.mp he, not_lt, not_le]
